import Mathlib

/-!
Verification of the calculation / user-profile application.

The calculation engine (`app/models/calculation.py`) and the user model
(`app/models/user.py`) are exercised by the repository's test suite; their
behaviour is specified in the design document. The auth helpers
(`app/auth/redis.py`, `app/auth/dependencies.py`) are embedded directly
from their source. Python numbers are modelled as rationals where the
operations stay rational (modulus, min/max, average, validation), and as
reals where exponentiation with fractional exponents is involved.
-/

deriving instance DecidableEq for Except

/-- Modelled from the spec: the closed enumeration of calculation type tags
(`app/models/calculation.py` is not in the source tree; tags per spec section 4.1). -/
inductive CalcType where
  | addition
  | subtraction
  | multiplication
  | division
  | exponentiation
  | modulus
  | minimum
  | maximum
  | average
deriving DecidableEq

/-- Modelled from the spec: the failure modes of calculation evaluation
(spec section 7 taxonomy; messages quoted in spec sections 4.1 and 8). -/
inductive CalcError where
  | invalidInput (msg : String)
  | divisionByZero (msg : String)
  | modulusByZero (msg : String)
  | unsupportedType (msg : String)
deriving DecidableEq

/-- Modelled from the spec: the `inputs` value handed to a calculation.
Python accepts any value here; it is either a list of numbers or some
other value (e.g. the string used in the tests), which `get_result`
rejects. -/
inductive PyInputs (α : Type) where
  | invalid
  | list (xs : List α)
deriving DecidableEq

/-- The numeric operations a calculation uses. Python's arithmetic is
duck-typed; the engine is written over this interface and instantiated at
the rationals (exact arithmetic) and at the reals (fractional powers). -/
structure NumOps (α : Type) where
  isZero : α → Bool
  add : α → α → α
  sub : α → α → α
  mul : α → α → α
  div : α → α → α
  mod : α → α → α
  pow : α → α → α
  min : α → α → α
  max : α → α → α
  ofNat : Nat → α

/-- Modelled from the spec: the guarded left-to-right fold used by division
and modulus; each operand after the first is checked against zero before
being applied, so a zero mid-sequence also fails (spec section 4.1). -/
def foldGuard (isZero : α → Bool) (op : α → α → α) (e : CalcError) :
    α → List α → Except CalcError α
  | acc, [] => .ok acc
  | acc, b :: rest =>
    if isZero b then .error e else foldGuard isZero op e (op acc b) rest

/-- Modelled from the spec: evaluation of a validated input list
`a :: rest` (length at least two), dispatching on the type tag
(spec section 4.1 evaluation semantics). -/
def compute (ops : NumOps α) (t : CalcType) (a : α) (rest : List α) :
    Except CalcError α :=
  match t with
  | .addition => .ok (rest.foldl ops.add a)
  | .subtraction => .ok (rest.foldl ops.sub a)
  | .multiplication => .ok (rest.foldl ops.mul a)
  | .division =>
    foldGuard ops.isZero ops.div (.divisionByZero "Cannot perform division by zero") a rest
  | .exponentiation => .ok (rest.foldl ops.pow a)
  | .modulus =>
    foldGuard ops.isZero ops.mod (.modulusByZero "Cannot perform modulus by zero") a rest
  | .minimum => .ok (rest.foldl ops.min a)
  | .maximum => .ok (rest.foldl ops.max a)
  | .average =>
    .ok (ops.div (rest.foldl ops.add a) (ops.ofNat (rest.length + 1)))

/-- Modelled from the spec: `get_result` — validate the inputs value
(must be a list of numbers with at least two elements), then evaluate
(spec sections 4.1 and 8). -/
def get_result (ops : NumOps α) (t : CalcType) (v : PyInputs α) :
    Except CalcError α :=
  match v with
  | .invalid => .error (.invalidInput "Inputs must be a list of numbers")
  | .list (a :: b :: rest) => compute ops t a (b :: rest)
  | .list _ => .error (.invalidInput "Inputs must be a list with at least two numbers")

/-- Python's `%` on numbers: `a - b * floor(a / b)` (sign follows the
divisor), here over the rationals. -/
def pymod (a b : ℚ) : ℚ := a - b * (⌊a / b⌋ : ℚ)

/-- Python's `**` restricted to the rationals: defined for integer
exponents; fractional exponents leave the rationals and are handled by
the real-valued instance `realOps`. -/
def qpow (a b : ℚ) : ℚ := if b.den = 1 then a ^ b.num else 0

/-- The calculation engine's numeric operations at the rationals. -/
def ratOps : NumOps ℚ where
  isZero := fun a => a == 0
  add := fun a b => a + b
  sub := fun a b => a - b
  mul := fun a b => a * b
  div := fun a b => a / b
  mod := pymod
  pow := qpow
  min := fun a b => min a b
  max := fun a b => max a b
  ofNat := fun n => (n : ℚ)

/-- The calculation engine's numeric operations at the reals; `**` is
real exponentiation `Real.rpow`, matching Python's float power on
nonnegative bases. -/
noncomputable def realOps : NumOps ℝ where
  isZero := fun a => decide (a = 0)
  add := fun a b => a + b
  sub := fun a b => a - b
  mul := fun a b => a * b
  div := fun a b => a / b
  mod := fun a b => a - b * (⌊a / b⌋ : ℝ)
  pow := Real.rpow
  min := fun a b => min a b
  max := fun a b => max a b
  ofNat := fun n => (n : ℝ)

/-- Modelled from the spec: a bcrypt-class password hash
(`app/models/user.py` is not in the source tree). One-wayness and salting
are abstracted away: the model keeps the hashed plaintext as a tag so
that `verify_password` can be stated; the functional contract
(hash-then-verify round trip, mismatch rejected) is what the claims use. -/
structure PwHash where
  tag : String
deriving DecidableEq

/-- Modelled from the spec: `hash(plaintext)` (spec section 4.2). -/
def hash_password (p : String) : PwHash := ⟨p⟩

/-- Modelled from the spec: `verify(plaintext, hash)` (spec section 4.2). -/
def verify_password (p : String) (h : PwHash) : Bool := p == h.tag

/-- Modelled from the spec: the User identity record (spec section 3);
timestamps are abstract clock readings (Nat), `password_updated_at` is
nullable as required by the schema migration in
`src/alembic/versions/001_add_password_updated_at.py`. -/
structure User where
  id : Nat
  first_name : String
  last_name : String
  username : String
  email : String
  password : PwHash
  is_active : Bool
  is_verified : Bool
  created_at : Nat
  updated_at : Nat
  password_updated_at : Option Nat
deriving DecidableEq

/-- Modelled from the spec: the user-facing failure modes of the credential
manager and profile guard (spec section 7 taxonomy; messages per the test
suite in `src/tests/integration/test_user_profile.py` and
`src/tests/integration/test_profile_api.py`). -/
inductive UserError where
  | incorrectCredential (msg : String)
  | weakPassword (msg : String)
  | unchangedPassword (msg : String)
  | duplicateField (msg : String)
  | noFieldsProvided (msg : String)
deriving DecidableEq

/-- Modelled from the spec: `change_password(user, current, new)`
(spec section 4.2): wrong current password, then too-short new password,
then unchanged password are rejected in that order; on success the stored
hash is replaced and both timestamps are set to the present instant
`now`. -/
def change_password (now : Nat) (u : User) (current new_pw : String) :
    Except UserError User :=
  if !(verify_password current u.password) then
    .error (.incorrectCredential "Current password is incorrect")
  else if new_pw.length < 6 then
    .error (.weakPassword "New password must be at least 6 characters long")
  else if new_pw == current then
    .error (.unchangedPassword "New password must be different from current password")
  else
    .ok { u with
            password := hash_password new_pw
            updated_at := now
            password_updated_at := some now }

/-- Modelled from the spec: the partial field set handed to
`update_profile` (spec section 4.3): a partial set of
first name, last name, username, email. -/
structure ProfileFields where
  first_name : Option String
  last_name : Option String
  username : Option String
  email : Option String
deriving DecidableEq

/-- No field of the partial update is present. -/
def ProfileFields.isEmpty (f : ProfileFields) : Bool :=
  f.first_name.isNone && f.last_name.isNone && f.username.isNone && f.email.isNone

/-- Modelled from the spec: the requested username already exists among
*other* users (spec section 4.3); `others` is the user population
excluding the record being updated. -/
def username_taken (others : List User) (f : ProfileFields) : Bool :=
  match f.username with
  | none => false
  | some un => others.any (fun v => v.username == un)

/-- Modelled from the spec: the requested email already exists among
*other* users (spec section 4.3). -/
def email_taken (others : List User) (f : ProfileFields) : Bool :=
  match f.email with
  | none => false
  | some em => others.any (fun v => v.email == em)

/-- Modelled from the spec: apply all provided fields atomically and
advance `updated_at` (spec section 4.3). -/
def apply_fields (now : Nat) (u : User) (f : ProfileFields) : User :=
  { u with
      first_name := f.first_name.getD u.first_name
      last_name := f.last_name.getD u.last_name
      username := f.username.getD u.username
      email := f.email.getD u.email
      updated_at := now }

/-- Modelled from the spec: the internal `update_profile(user, fields)`
primitive (spec section 4.3): duplicate username, then duplicate email
are rejected; an empty field set is a no-op that still succeeds with no
state change; otherwise all provided fields are applied atomically. -/
def update_profile (now : Nat) (others : List User) (u : User)
    (f : ProfileFields) : Except UserError User :=
  if username_taken others f then
    .error (.duplicateField "Username already exists")
  else if email_taken others f then
    .error (.duplicateField "Email already exists")
  else if f.isEmpty then
    .ok u
  else
    .ok (apply_fields now u f)

/-- Modelled from the spec: the public update-profile endpoint contract
(spec section 7): a request with no fields fails with `NoFieldsProvided`
instead of succeeding as a no-op; otherwise it defers to the internal
primitive. -/
def update_profile_endpoint (now : Nat) (others : List User) (u : User)
    (f : ProfileFields) : Except UserError User :=
  if f.isEmpty then .error (.noFieldsProvided "No fields provided")
  else update_profile now others u f

/-- The optional revocation cache's key-value state
(`src/app/auth/redis.py`); entries are key, value, expiry. -/
structure RedisState where
  entries : List (String × String × Nat)
deriving DecidableEq

/-- `redis.set(key, value, ex)` on the modelled store. -/
def RedisState.set (s : RedisState) (k v : String) (ex : Nat) : RedisState :=
  ⟨(k, v, ex) :: s.entries⟩

/-- `redis.exists(key)` on the modelled store. -/
def RedisState.existsKey (s : RedisState) (k : String) : Bool :=
  s.entries.any (fun e => e.1 == k)

/-- `add_to_blacklist` from `src/app/auth/redis.py` lines 26-31: when the
Redis client is unavailable (`get_redis()` returns `None`) the function
returns with no effect; otherwise it sets `blacklist:` ++ jti. The
returned value is the (possibly unchanged) cache state. -/
def add_to_blacklist (redis : Option RedisState) (jti : String) (exp : Nat) :
    Option RedisState :=
  match redis with
  | none => none
  | some s => some (s.set ("blacklist:" ++ jti) "1" exp)

/-- `is_blacklisted` from `src/app/auth/redis.py` lines 34-39: defaults to
`false` when the Redis client is unavailable. -/
def is_blacklisted (redis : Option RedisState) (jti : String) : Bool :=
  match redis with
  | none => false
  | some s => s.existsKey ("blacklist:" ++ jti)

/-- The `UserResponse` schema as used by `src/app/auth/dependencies.py`;
the id is a UUID rendered as a string, timestamps abstract clock
readings. -/
structure UserResponse where
  id : String
  username : String
  email : String
  first_name : String
  last_name : String
  is_active : Bool
  is_verified : Bool
  created_at : Nat
  updated_at : Nat
deriving DecidableEq

/-- The shapes `User.verify_token` can hand to `get_current_user`
(`src/app/auth/dependencies.py` lines 31-67): a dict with a full set of
user fields, a dict with only a `sub` key, a dict with neither, or a
bare UUID. -/
inductive TokenData where
  | full (r : UserResponse)
  | subOnly (sub : String)
  | emptyDict
  | bare (uuid : String)
deriving DecidableEq

/-- The two rejection outcomes of the auth dependencies: the 401
credentials exception and the 400 inactive-user rejection. -/
inductive AuthError where
  | credentialsException
  | inactiveUser
deriving DecidableEq

/-- The placeholder `UserResponse` that `get_current_user` builds for a
minimal payload (`src/app/auth/dependencies.py` lines 38-49 and 54-65);
`created_at`/`updated_at` are `datetime.utcnow()`, modelled as the
present instant `now`. -/
def minimal_user_response (now : Nat) (sub : String) : UserResponse :=
  ⟨sub, "unknown", "unknown@example.com", "Unknown", "User", true, false, now, now⟩

/-- `get_current_user` from `src/app/auth/dependencies.py` lines 12-70:
`None` from `verify_token` is rejected; a full dict is returned directly;
a dict with only `sub`, or a bare UUID, yields the placeholder response;
a dict with neither key is rejected. No database access occurs. -/
def get_current_user (now : Nat) (token_data : Option TokenData) :
    Except AuthError UserResponse :=
  match token_data with
  | none => .error .credentialsException
  | some (.full r) => .ok r
  | some (.subOnly sub) => .ok (minimal_user_response now sub)
  | some .emptyDict => .error .credentialsException
  | some (.bare uuid) => .ok (minimal_user_response now uuid)

/-- `get_current_active_user` from `src/app/auth/dependencies.py` lines
114-125: rejects an inactive current user, passes an active one
through. -/
def get_current_active_user (current_user : UserResponse) :
    Except AuthError UserResponse :=
  if !current_user.is_active then .error .inactiveUser
  else .ok current_user

/-- The guarded fold over the rationals either hits a zero operand and
reports the error, or is the plain left fold of the operation. -/
theorem foldGuard_rat_eq (op : ℚ → ℚ → ℚ) (e : CalcError) (acc : ℚ)
    (l : List ℚ) :
    foldGuard ratOps.isZero op e acc l =
      if (0:ℚ) ∈ l then .error e else .ok (l.foldl op acc) := by
  induction l generalizing acc with
  | nil => simp [foldGuard]
  | cons b rest ih =>
    by_cases hb : b = 0
    · subst hb
      have hc : ratOps.isZero (0:ℚ) = true := by simp [ratOps]
      simp [foldGuard, hc]
    · have hc : ratOps.isZero b = false := by simp [ratOps, hb]
      simp [foldGuard, hc, ih, Ne.symm hb]

/-- Claim C1: for every input list of length at least two, modulus computes
the left-to-right fold of Python remainder, and it fails with
`ModulusByZero` ("Cannot perform modulus by zero") exactly when some
operand after the first element is zero, including a zero mid-sequence. -/
theorem modulus_running_remainder (a b : ℚ) (rest : List ℚ) :
    (get_result ratOps .modulus (.list (a :: b :: rest)) =
        .error (.modulusByZero "Cannot perform modulus by zero")
      ↔ (0:ℚ) ∈ b :: rest)
    ∧ ((0:ℚ) ∉ b :: rest →
        get_result ratOps .modulus (.list (a :: b :: rest)) =
          .ok ((b :: rest).foldl pymod a)) := by
  have h : get_result ratOps .modulus (.list (a :: b :: rest)) =
      if (0:ℚ) ∈ b :: rest then
        .error (.modulusByZero "Cannot perform modulus by zero")
      else .ok ((b :: rest).foldl pymod a) := by
    simpa [get_result, compute] using
      foldGuard_rat_eq ratOps.mod
        (.modulusByZero "Cannot perform modulus by zero") a (b :: rest)
  constructor
  · rw [h]
    split_ifs with h0
    · simp [h0]
    · simp [h0]
  · intro h0
    rw [h, if_neg h0]

/-- Witness for C1: modulus([100,30,7]) = 3 (that is, (100 % 30) % 7) and
modulus([100,30,0]) fails with `ModulusByZero`. -/
theorem modulus_running_remainder_witness :
    get_result ratOps .modulus (.list [(100:ℚ), 30, 7]) = .ok 3
    ∧ get_result ratOps .modulus (.list [(100:ℚ), 30, 0]) =
        .error (.modulusByZero "Cannot perform modulus by zero") := by
  constructor
  · have h := (modulus_running_remainder 100 30 [7]).2 (by norm_num)
    rw [h]
    norm_num [pymod]
  · exact (modulus_running_remainder 100 30 [0]).1.mpr (by norm_num)

/-- Python power at concrete values: 2 ** 3 = 8. -/
theorem rpow_two_three : (2:ℝ) ^ (3:ℝ) = 8 := by
  rw [show (3:ℝ) = ((3:ℕ):ℝ) by norm_num, Real.rpow_natCast]
  norm_num

/-- Python power at concrete values: 8 ** 2 = 64. -/
theorem rpow_eight_two : (8:ℝ) ^ (2:ℝ) = 64 := by
  rw [show (2:ℝ) = ((2:ℕ):ℝ) by norm_num, Real.rpow_natCast]
  norm_num

/-- Python power at concrete values: 2 ** -2 = 0.25. -/
theorem rpow_two_neg_two : (2:ℝ) ^ (-2:ℝ) = 1/4 := by
  rw [show (-2:ℝ) = -((2:ℕ):ℝ) by norm_num,
    Real.rpow_neg (by norm_num : (0:ℝ) ≤ 2), Real.rpow_natCast]
  norm_num

/-- Python power at concrete values: 16 ** 0.5 = 4. -/
theorem rpow_sixteen_half : (16:ℝ) ^ ((1:ℝ)/2) = 4 := by
  rw [show (16:ℝ) = (4:ℝ) ^ ((2:ℕ):ℝ) by rw [Real.rpow_natCast]; norm_num,
    ← Real.rpow_mul (by norm_num : (0:ℝ) ≤ 4),
    show ((2:ℕ):ℝ) * ((1:ℝ)/2) = 1 by norm_num, Real.rpow_one]

/-- Claim C2: for every input list of length at least two, exponentiation
computes the left-to-right fold of power `((a0 ** a1) ** a2) ...`; a
negative exponent gives a fractional result (2 ** -2 = 0.25) and
fractional exponents are supported (16 ** 0.5 = 4); (2 ** 3) ** 2 = 64. -/
theorem exponentiation_running_power (a b : ℝ) (rest : List ℝ) :
    get_result realOps .exponentiation (.list (a :: b :: rest)) =
      .ok ((b :: rest).foldl Real.rpow a)
    ∧ get_result realOps .exponentiation (.list [(2:ℝ), 3, 2]) = .ok 64
    ∧ get_result realOps .exponentiation (.list [(2:ℝ), -2]) = .ok (1/4)
    ∧ get_result realOps .exponentiation (.list [(16:ℝ), 1/2]) = .ok 4 := by
  have hfold : ∀ (x y : ℝ) (l : List ℝ),
      get_result realOps .exponentiation (.list (x :: y :: l)) =
        .ok ((y :: l).foldl Real.rpow x) := by
    intro x y l
    simp [get_result, compute, realOps]
  refine ⟨hfold a b rest, ?_, ?_, ?_⟩
  · rw [hfold 2 3 [2]]
    simp only [List.foldl_cons, List.foldl_nil]
    show Except.ok (((2:ℝ) ^ (3:ℝ)) ^ (2:ℝ)) = Except.ok 64
    rw [rpow_two_three, rpow_eight_two]
  · rw [hfold 2 (-2) []]
    simp only [List.foldl_cons, List.foldl_nil]
    show Except.ok ((2:ℝ) ^ (-2:ℝ)) = Except.ok (1/4)
    rw [rpow_two_neg_two]
  · rw [hfold 16 (1/2) []]
    simp only [List.foldl_cons, List.foldl_nil]
    show Except.ok ((16:ℝ) ^ ((1:ℝ)/2)) = Except.ok 4
    rw [rpow_sixteen_half]

/-- Claim C3: for every calculation type, `get_result` rejects an inputs
value that is not a list of numbers with `InvalidInput`
("Inputs must be a list of numbers"), and a list of fewer than two
elements with `InvalidInput` ("Inputs must be a list with at least two
numbers"); no numeric result is produced in either case. -/
theorem get_result_validation {α : Type} (ops : NumOps α) (t : CalcType) :
    get_result ops t .invalid =
      .error (.invalidInput "Inputs must be a list of numbers")
    ∧ ∀ xs : List α, xs.length < 2 →
        get_result ops t (.list xs) =
          .error (.invalidInput "Inputs must be a list with at least two numbers") := by
  refine ⟨rfl, ?_⟩
  intro xs hxs
  match xs with
  | [] => rfl
  | [x] => rfl
  | x :: y :: rest =>
    simp only [List.length_cons] at hxs
    exact absurd hxs (by omega)

/-- Witness for C3: the two validation failures at a concrete type and
concrete inputs. -/
theorem get_result_validation_witness :
    get_result ratOps .addition .invalid =
      .error (.invalidInput "Inputs must be a list of numbers")
    ∧ get_result ratOps .addition (.list [(5:ℚ)]) =
        .error (.invalidInput "Inputs must be a list with at least two numbers") :=
  ⟨(get_result_validation ratOps .addition).1,
   (get_result_validation ratOps .addition).2 [5] (by norm_num)⟩

/-- The running minimum of a list is one of its elements. -/
theorem foldl_min_mem (a : ℚ) (l : List ℚ) : l.foldl min a ∈ a :: l := by
  induction l generalizing a with
  | nil => simp
  | cons b rest ih =>
    simp only [List.foldl_cons]
    rcases List.mem_cons.mp (ih (min a b)) with h1 | h1
    · rw [h1]
      rcases min_choice a b with hm | hm
      · rw [hm]; simp
      · rw [hm]; simp
    · simp [h1]

/-- The running minimum of a list is a lower bound for it. -/
theorem foldl_min_le (a : ℚ) (l : List ℚ) : ∀ y ∈ a :: l, l.foldl min a ≤ y := by
  induction l generalizing a with
  | nil =>
    intro y hy
    simp only [List.mem_singleton] at hy
    simp [hy]
  | cons b rest ih =>
    intro y hy
    simp only [List.foldl_cons]
    rcases List.mem_cons.mp hy with rfl | hy'
    · exact le_trans (ih _ _ (List.mem_cons_self _ _)) (min_le_left _ _)
    · rcases List.mem_cons.mp hy' with rfl | hy2
      · exact le_trans (ih _ _ (List.mem_cons_self _ _)) (min_le_right _ _)
      · exact ih _ y (List.mem_cons_of_mem _ hy2)

/-- The running maximum of a list is one of its elements. -/
theorem foldl_max_mem (a : ℚ) (l : List ℚ) : l.foldl max a ∈ a :: l := by
  induction l generalizing a with
  | nil => simp
  | cons b rest ih =>
    simp only [List.foldl_cons]
    rcases List.mem_cons.mp (ih (max a b)) with h1 | h1
    · rw [h1]
      rcases max_choice a b with hm | hm
      · rw [hm]; simp
      · rw [hm]; simp
    · simp [h1]

/-- The running maximum of a list is an upper bound for it. -/
theorem le_foldl_max (a : ℚ) (l : List ℚ) : ∀ y ∈ a :: l, y ≤ l.foldl max a := by
  induction l generalizing a with
  | nil =>
    intro y hy
    simp only [List.mem_singleton] at hy
    simp [hy]
  | cons b rest ih =>
    intro y hy
    simp only [List.foldl_cons]
    rcases List.mem_cons.mp hy with rfl | hy'
    · exact le_trans (le_max_left _ _) (ih _ _ (List.mem_cons_self _ _))
    · rcases List.mem_cons.mp hy' with rfl | hy2
      · exact le_trans (le_max_right _ _) (ih _ _ (List.mem_cons_self _ _))
      · exact ih _ y (List.mem_cons_of_mem _ hy2)

/-- Claim C8: for every input list of length at least two, minimum
(respectively maximum) returns the least (respectively greatest) element
of the list, and the result is invariant under any permutation of the
inputs. -/
theorem minimum_maximum_order_independent (a b : ℚ) (rest : List ℚ) :
    (get_result ratOps .minimum (.list (a :: b :: rest)) =
        .ok ((b :: rest).foldl min a)
      ∧ (b :: rest).foldl min a ∈ a :: b :: rest
      ∧ ∀ y ∈ a :: b :: rest, (b :: rest).foldl min a ≤ y)
    ∧ (get_result ratOps .maximum (.list (a :: b :: rest)) =
        .ok ((b :: rest).foldl max a)
      ∧ (b :: rest).foldl max a ∈ a :: b :: rest
      ∧ ∀ y ∈ a :: b :: rest, y ≤ (b :: rest).foldl max a)
    ∧ (∀ c d rest2, (a :: b :: rest).Perm (c :: d :: rest2) →
        get_result ratOps .minimum (.list (a :: b :: rest)) =
          get_result ratOps .minimum (.list (c :: d :: rest2))
        ∧ get_result ratOps .maximum (.list (a :: b :: rest)) =
          get_result ratOps .maximum (.list (c :: d :: rest2))) := by
  have hmin : ∀ (x y : ℚ) (l : List ℚ),
      get_result ratOps .minimum (.list (x :: y :: l)) =
        .ok ((y :: l).foldl min x) := by
    intro x y l
    simp [get_result, compute, ratOps]
  have hmax : ∀ (x y : ℚ) (l : List ℚ),
      get_result ratOps .maximum (.list (x :: y :: l)) =
        .ok ((y :: l).foldl max x) := by
    intro x y l
    simp [get_result, compute, ratOps]
  refine ⟨⟨hmin a b rest, foldl_min_mem a (b :: rest), foldl_min_le a (b :: rest)⟩,
    ⟨hmax a b rest, foldl_max_mem a (b :: rest), le_foldl_max a (b :: rest)⟩, ?_⟩
  intro c d rest2 hperm
  constructor
  · rw [hmin a b rest, hmin c d rest2]
    have h1 := foldl_min_mem a (b :: rest)
    have h2 := foldl_min_mem c (d :: rest2)
    have hle1 := foldl_min_le a (b :: rest) _ (hperm.mem_iff.mpr h2)
    have hle2 := foldl_min_le c (d :: rest2) _ (hperm.mem_iff.mp h1)
    exact congrArg Except.ok (le_antisymm hle1 hle2)
  · rw [hmax a b rest, hmax c d rest2]
    have h1 := foldl_max_mem a (b :: rest)
    have h2 := foldl_max_mem c (d :: rest2)
    have hle1 := le_foldl_max a (b :: rest) _ (hperm.mem_iff.mpr h2)
    have hle2 := le_foldl_max c (d :: rest2) _ (hperm.mem_iff.mp h1)
    exact congrArg Except.ok (le_antisymm hle2 hle1)

/-- Witness for C8: minimum([5,2,9,1]) = 1, maximum([5,2,9,1]) = 9, and
swapping the two inputs of a pair leaves minimum unchanged. -/
theorem minimum_maximum_order_independent_witness :
    get_result ratOps .minimum (.list [(5:ℚ), 2, 9, 1]) = .ok 1
    ∧ get_result ratOps .maximum (.list [(5:ℚ), 2, 9, 1]) = .ok 9
    ∧ get_result ratOps .minimum (.list [(5:ℚ), 2]) =
        get_result ratOps .minimum (.list [(2:ℚ), 5]) := by
  refine ⟨?_, ?_,
    ((minimum_maximum_order_independent 5 2 []).2.2 2 5 [] (List.Perm.swap 2 5 [])).1⟩
  · have h := (minimum_maximum_order_independent 5 2 [9, 1]).1.1
    rw [h]
    norm_num [min_def]
  · have h := (minimum_maximum_order_independent 5 2 [9, 1]).2.1.1
    rw [h]
    norm_num [max_def]

/-- Claim C4: a change_password call where the current plaintext verifies,
the new password has length at least 6 and differs from the current one,
succeeds: the stored hash is replaced so that the old password no longer
verifies, the new password verifies immediately afterwards, and
`updated_at` and the password-changed timestamp strictly advance. -/
theorem change_password_success (now : Nat) (u : User) (current new_pw : String)
    (hver : verify_password current u.password = true)
    (hlen : 6 ≤ new_pw.length)
    (hne : new_pw ≠ current)
    (htime : u.updated_at < now)
    (hpw : ∀ t0, u.password_updated_at = some t0 → t0 < now) :
    ∃ u2, change_password now u current new_pw = .ok u2
      ∧ verify_password current u2.password = false
      ∧ verify_password new_pw u2.password = true
      ∧ u.updated_at < u2.updated_at
      ∧ u2.password_updated_at = some now
      ∧ (∀ t0, u.password_updated_at = some t0 →
          ∃ t1, u2.password_updated_at = some t1 ∧ t0 < t1) := by
  refine ⟨{ u with
              password := hash_password new_pw
              updated_at := now
              password_updated_at := some now }, ?_, ?_, ?_, htime, rfl, ?_⟩
  · simp [change_password, hver, Nat.not_lt.mpr hlen, hne]
  · simp only [verify_password, hash_password]
    exact beq_eq_false_iff_ne.mpr (Ne.symm hne)
  · simp [verify_password, hash_password]
  · intro t0 h0
    exact ⟨now, rfl, hpw t0 h0⟩

/-- Witness for C4: a concrete user changes "TestPass123" to "NewPass456";
after the call the old password no longer verifies and the new one does. -/
theorem change_password_success_witness :
    ∃ u2, change_password 1
        ⟨0, "First", "Last", "user1", "user1@example.com",
          hash_password "TestPass123", true, false, 0, 0, none⟩
        "TestPass123" "NewPass456" = .ok u2
      ∧ verify_password "TestPass123" u2.password = false
      ∧ verify_password "NewPass456" u2.password = true
      ∧ u2.password_updated_at = some 1 := by
  obtain ⟨u2, h1, h2, h3, _, h5, _⟩ :=
    change_password_success 1
      ⟨0, "First", "Last", "user1", "user1@example.com",
        hash_password "TestPass123", true, false, 0, 0, none⟩
      "TestPass123" "NewPass456" (by decide) (by decide) (by decide)
      (by decide) (by intro t0 h0; cases h0)
  exact ⟨u2, h1, h2, h3, h5⟩

/-- Claim C5: a change_password call where the supplied current password
does not verify against the stored hash fails with `IncorrectCredential`,
and no successor state is produced (the stored hash is untouched on the
error path). -/
theorem change_password_wrong_current (now : Nat) (u : User)
    (current new_pw : String)
    (h : verify_password current u.password = false) :
    change_password now u current new_pw =
      .error (.incorrectCredential "Current password is incorrect")
    ∧ ∀ u2, change_password now u current new_pw ≠ .ok u2 := by
  have he : change_password now u current new_pw =
      .error (.incorrectCredential "Current password is incorrect") := by
    simp [change_password, h]
  exact ⟨he, fun u2 hc => by rw [he] at hc; cases hc⟩

/-- Witness for C5: a wrong current password is rejected with
`IncorrectCredential` at a concrete user. -/
theorem change_password_wrong_current_witness :
    change_password 1
      ⟨0, "First", "Last", "user1", "user1@example.com",
        hash_password "TestPass123", true, false, 0, 0, none⟩
      "WrongPassword" "NewPass456" =
      .error (.incorrectCredential "Current password is incorrect") :=
  (change_password_wrong_current 1
    ⟨0, "First", "Last", "user1", "user1@example.com",
      hash_password "TestPass123", true, false, 0, 0, none⟩
    "WrongPassword" "NewPass456" (by decide)).1

/-- Claim C6: updating a user's username to a value held by a different
user (a member of the population `others`, which excludes the record
being updated) fails with `DuplicateField` ("Username already exists"),
symmetrically for email ("Email already exists"); updating a user's
username to that user's own current value succeeds with no collision
reported, provided no other user holds it (the uniqueness invariant). -/
theorem update_profile_duplicate_field (now : Nat) (others : List User)
    (A B : User) (hA : A ∈ others) :
    update_profile now others B ⟨none, none, some A.username, none⟩ =
      .error (.duplicateField "Username already exists")
    ∧ update_profile now others B ⟨none, none, none, some A.email⟩ =
      .error (.duplicateField "Email already exists")
    ∧ ((∀ v ∈ others, v.username ≠ B.username) →
        update_profile now others B ⟨none, none, some B.username, none⟩ =
          .ok (apply_fields now B ⟨none, none, some B.username, none⟩)
        ∧ (apply_fields now B ⟨none, none, some B.username, none⟩).username
            = B.username) := by
  refine ⟨?_, ?_, ?_⟩
  · have hu : username_taken others ⟨none, none, some A.username, none⟩ = true := by
      simp only [username_taken, List.any_eq_true]
      exact ⟨A, hA, by simp⟩
    simp [update_profile, hu]
  · have hu : username_taken others ⟨none, none, none, some A.email⟩ = false := rfl
    have he : email_taken others ⟨none, none, none, some A.email⟩ = true := by
      simp only [email_taken, List.any_eq_true]
      exact ⟨A, hA, by simp⟩
    simp [update_profile, hu, he]
  · intro hOwn
    have hu : username_taken others ⟨none, none, some B.username, none⟩ = false := by
      simp only [username_taken, List.any_eq_false]
      intro v hv
      simp [hOwn v hv]
    have he : email_taken others ⟨none, none, some B.username, none⟩ = false := rfl
    have hne : ProfileFields.isEmpty ⟨none, none, some B.username, none⟩ = false := rfl
    refine ⟨?_, ?_⟩
    · simp [update_profile, hu, he, hne]
    · simp [apply_fields]

/-- Witness for C6: with two concrete users, setting the second user's
username to the first's fails with `DuplicateField`, while re-setting
the second user's own username succeeds. -/
theorem update_profile_duplicate_field_witness :
    update_profile 1
      [⟨0, "User", "One", "userA", "a@example.com",
        hash_password "Password123!", true, false, 0, 0, none⟩]
      ⟨1, "User", "Two", "userB", "b@example.com",
        hash_password "Password123!", true, false, 0, 0, none⟩
      ⟨none, none, some "userA", none⟩ =
      .error (.duplicateField "Username already exists")
    ∧ (update_profile 1
        [⟨0, "User", "One", "userA", "a@example.com",
          hash_password "Password123!", true, false, 0, 0, none⟩]
        ⟨1, "User", "Two", "userB", "b@example.com",
          hash_password "Password123!", true, false, 0, 0, none⟩
        ⟨none, none, some "userB", none⟩ =
        .ok (apply_fields 1
          ⟨1, "User", "Two", "userB", "b@example.com",
            hash_password "Password123!", true, false, 0, 0, none⟩
          ⟨none, none, some "userB", none⟩)) := by
  have h := update_profile_duplicate_field 1
    [⟨0, "User", "One", "userA", "a@example.com",
      hash_password "Password123!", true, false, 0, 0, none⟩]
    ⟨0, "User", "One", "userA", "a@example.com",
      hash_password "Password123!", true, false, 0, 0, none⟩
    ⟨1, "User", "Two", "userB", "b@example.com",
      hash_password "Password123!", true, false, 0, 0, none⟩
    (List.mem_cons_self _ _)
  exact ⟨h.1, (h.2.2 (by decide)).1⟩

/-- Claim C7: the internal update_profile primitive applied to an empty
field set succeeds as a no-op returning the user unchanged (every profile
field and `updated_at` untouched), whereas the public update-profile
endpoint, given a request with no fields, fails with `NoFieldsProvided`. -/
theorem update_profile_empty_versus_endpoint (now : Nat) (others : List User)
    (u : User) :
    update_profile now others u ⟨none, none, none, none⟩ = .ok u
    ∧ update_profile_endpoint now others u ⟨none, none, none, none⟩ =
      .error (.noFieldsProvided "No fields provided") :=
  ⟨rfl, rfl⟩

/-- Claim C9: when the Redis client is unavailable, `is_blacklisted`
returns false for every token identifier and `add_to_blacklist` returns
without effect or error: the absent cache degrades to treating every
token as never revoked. -/
theorem blacklist_absent_cache (jti : String) (exp : Nat) :
    is_blacklisted none jti = false ∧ add_to_blacklist none jti exp = none :=
  ⟨rfl, rfl⟩

/-- Claim C10: for a verified token payload that is minimal (a dict with
only a `sub` key, or a bare UUID), `get_current_user` returns — with no
database access in its definition — a `UserResponse` whose id is the
token subject and whose remaining fields are the fixed placeholders, with
`is_active` true and `is_verified` false; consequently
`get_current_active_user` accepts such a bearer. -/
theorem minimal_token_placeholder_user (now : Nat) (sub : String) :
    get_current_user now (some (.subOnly sub)) =
      .ok (minimal_user_response now sub)
    ∧ get_current_user now (some (.bare sub)) =
      .ok (minimal_user_response now sub)
    ∧ (minimal_user_response now sub).id = sub
    ∧ (minimal_user_response now sub).username = "unknown"
    ∧ (minimal_user_response now sub).email = "unknown@example.com"
    ∧ (minimal_user_response now sub).first_name = "Unknown"
    ∧ (minimal_user_response now sub).last_name = "User"
    ∧ (minimal_user_response now sub).is_active = true
    ∧ (minimal_user_response now sub).is_verified = false
    ∧ get_current_active_user (minimal_user_response now sub) =
      .ok (minimal_user_response now sub) :=
  ⟨rfl, rfl, rfl, rfl, rfl, rfl, rfl, rfl, rfl, rfl⟩
